import Mathlib

/-!
Shallow embedding of the attendance-bot web application (`src/app.py`).

The SQLite database is modelled as an explicit `DBState` value holding the
three tables (`attendance`, `users`, `settings`) as lists of rows.  Each
Python function that touches the database becomes a Lean function that takes
the state (plus the wall-clock values `today` / `now`, which the Python code
reads from the system clock) and returns the new state together with its
Python return value.  Nullable TEXT columns are `Option String`; the
`completion INTEGER DEFAULT 0` column is `Int`.
-/

namespace AttendanceBot

/-- A row of the `attendance` table (`init_db`, src/app.py lines 44-63).
`user_id`, `user_name`, `date` are NOT NULL; the remaining TEXT columns are
nullable, and `completion` defaults to `0`. -/
structure AttendanceRecord where
  user_id : String
  user_name : String
  date : String
  check_in_time : Option String
  check_out_time : Option String
  morning_status : Option String
  evening_status : Option String
  location : Option String
  task : Option String
  tasks_json : Option String
  completion : Int
  progress_status : Option String
  work_summary : Option String
deriving Repr, DecidableEq

/-- A row of the `users` table (`init_db`): `user_id TEXT PRIMARY KEY`,
`user_name TEXT NOT NULL`, `is_active INTEGER DEFAULT 1`. -/
structure UserRow where
  user_id : String
  user_name : String
  is_active : Int
deriving Repr, DecidableEq

/-- A row of the `settings` table (`init_db`): `key TEXT PRIMARY KEY`,
`value TEXT`, `updated_at TEXT`. -/
structure SettingRow where
  key : String
  value : String
  updated_at : String
deriving Repr, DecidableEq

/-- The whole SQLite database `attendance.db` as one value. -/
structure DBState where
  attendance : List AttendanceRecord
  users : List UserRow
  settings : List SettingRow
deriving Repr, DecidableEq

/-- The SQL predicate `user_id = ? AND date = ?` used by `check_in`,
`check_out`, `update_progress` and `get_user_status`. -/
def recMatches (uid today : String) (r : AttendanceRecord) : Bool :=
  r.user_id == uid && r.date == today

/-- `SELECT id FROM attendance WHERE user_id = ? AND date = ?` returned a
row (the duplicate test inside `check_in`, src/app.py line 216-217). -/
def existsRecord (st : DBState) (uid today : String) : Bool :=
  st.attendance.any (recMatches uid today)

/-- Fetch the (by the UNIQUE(user_id, date) constraint unique) attendance
row for a user and date, if any. -/
def findRecord (st : DBState) (uid today : String) : Option AttendanceRecord :=
  st.attendance.find? (recMatches uid today)

/-- `get_setting(key, default='')` (src/app.py lines 115-122): returns the
stored value for `key`, or `default` when no row exists. -/
def get_setting (st : DBState) (key default : String) : String :=
  match st.settings.find? (fun r => r.key == key) with
  | some r => r.value
  | none => default

/-- `set_setting(key, value)` (src/app.py lines 124-131):
`INSERT OR REPLACE INTO settings (key, value, updated_at)`.  SQLite's
REPLACE deletes the conflicting row and inserts a fresh one. -/
def set_setting (st : DBState) (key value now : String) : DBState :=
  { st with settings :=
      st.settings.filter (fun r => !(r.key == key)) ++ [⟨key, value, now⟩] }

/-- `register_user(user_id, user_name)` (src/app.py lines 194-206):
`INSERT OR REPLACE INTO users (user_id, user_name, is_active) VALUES (?, ?, 1)`,
returning `True` on success (`False` only on a database exception, which the
pure model does not have). -/
def register_user (st : DBState) (uid uname : String) : DBState × Bool :=
  ({ st with users :=
      st.users.filter (fun u => !(u.user_id == uid)) ++ [⟨uid, uname, 1⟩] },
   true)

/-- `check_in(user_id, user_name, status, task, location="办公室",
tasks_json="[]")` (src/app.py lines 208-232).  If a row for (user, today)
already exists it returns `(False, "您今天已经签到过了！")` without touching
the database; otherwise it inserts the new record and then registers the
user. -/
def check_in (st : DBState) (today now uid uname status task : String)
    (location : String := "办公室") (tasks_json : String := "[]") :
    DBState × Bool × String :=
  if existsRecord st uid today then
    (st, false, "您今天已经签到过了！")
  else
    let r : AttendanceRecord :=
      { user_id := uid, user_name := uname, date := today,
        check_in_time := some now, check_out_time := none,
        morning_status := some status, evening_status := none,
        location := some location, task := some task,
        tasks_json := some tasks_json, completion := 0,
        progress_status := none, work_summary := none }
    let st1 : DBState := { st with attendance := st.attendance ++ [r] }
    ((register_user st1 uid uname).1, true,
     s!"签到成功！\n状态：{status}\n任务：{task}")

/-- The SET clause of `check_out`'s UPDATE statement (src/app.py lines
242-246). -/
def checkoutUpdate (now : String) (completion : Int) (work_summary : String)
    (r : AttendanceRecord) : AttendanceRecord :=
  { r with check_out_time := some now, completion := completion,
           evening_status := some "已完成工作", work_summary := some work_summary }

/-- `check_out(user_id, completion, work_summary='')` (src/app.py lines
234-257): runs the UPDATE on today's row for the user and, when
`cursor.rowcount == 0`, reports `(False, "您今天还没有签到！")`. -/
def check_out (st : DBState) (today now uid : String) (completion : Int)
    (work_summary : String := "") : DBState × Bool × String :=
  let rowcount := st.attendance.countP (recMatches uid today)
  let st1 : DBState :=
    { st with attendance :=
        st.attendance.map (fun r =>
          if recMatches uid today r then checkoutUpdate now completion work_summary r
          else r) }
  if rowcount == 0 then
    (st1, false, "您今天还没有签到！")
  else
    (st1, true, s!"签退成功！\n今日完成度：{completion}%")

/-- `update_progress(user_id, progress_status)` (src/app.py lines 259-271):
UPDATE of today's row; returns `True` unconditionally (the row count is
never examined). -/
def update_progress (st : DBState) (today uid progress : String) :
    DBState × Bool :=
  ({ st with attendance :=
        st.attendance.map (fun r =>
          if recMatches uid today r then { r with progress_status := some progress }
          else r) },
   true)

/-! JSON helpers.  `json.dumps` / `json.loads` restricted to lists of
strings, which is the shape of the `task_tags` and `status_options`
settings.  The encoder mirrors `json.dumps`'s default output for a list of
strings that contain no character needing an escape (`json.dumps` separates
items with a comma and a space); the decoder accepts exactly such arrays. -/

/-- Leading spaces of a character stream (the only whitespace `json.dumps`
emits). -/
def skipSpaces : List Char → List Char
  | [] => []
  | c :: rest => if c = ' ' then skipSpaces rest else c :: rest

/-- Parse the remainder of a JSON string (the opening quote already
consumed), with no escape handling: read characters up to the closing
quote. -/
def parseStr (acc : List Char) : List Char → Option (String × List Char)
  | [] => none
  | c :: rest =>
    if c = '"' then some (⟨acc.reverse⟩, rest)
    else parseStr (c :: acc) rest

/-- Parse a non-empty comma-separated sequence of JSON strings followed by
the closing `]`.  The fuel bounds the number of items. -/
def parseItems : Nat → List Char → Option (List String × List Char)
  | 0, _ => none
  | fuel + 1, cs =>
    match skipSpaces cs with
    | [] => none
    | c :: rest =>
      if c = '"' then
        match parseStr [] rest with
        | none => none
        | some (s, rest2) =>
          match skipSpaces rest2 with
          | [] => none
          | d :: rest3 =>
            if d = ']' then some ([s], rest3)
            else if d = ',' then
              match parseItems fuel rest3 with
              | some (l, rest4) => some (s :: l, rest4)
              | none => none
            else none
      else none

/-- `json.loads` restricted to arrays of strings: `none` models a
`json.JSONDecodeError`. -/
def decodeJsonStringList (str : String) : Option (List String) :=
  match skipSpaces str.data with
  | [] => none
  | c :: rest =>
    if c = '[' then
      match skipSpaces rest with
      | [] => none
      | d :: rest2 =>
        if d = ']' then (if skipSpaces rest2 = [] then some [] else none)
        else
          match parseItems (rest.length + 1) (d :: rest2) with
          | some (l, rest3) => if skipSpaces rest3 = [] then some l else none
          | none => none
    else none

/-- One encoded item: `"s"`. -/
def encodeItem (s : String) : List Char :=
  '"' :: s.data ++ ['"']

/-- Items joined by `json.dumps`'s default item separator `", "`. -/
def encodeItemsCh : List String → List Char
  | [] => []
  | [s] => encodeItem s
  | s :: s2 :: rest => encodeItem s ++ ',' :: ' ' :: encodeItemsCh (s2 :: rest)

/-- `json.dumps` on a list of strings (valid for strings with no `"` or
`\` character, which would need escaping). -/
def encodeJsonStringList (l : List String) : String :=
  ⟨'[' :: (encodeItemsCh l ++ [']'])⟩

/-- A string `json.dumps` would emit verbatim (no escape sequences
needed). -/
def jsonPlain (s : String) : Prop :=
  '"' ∉ s.data ∧ '\\' ∉ s.data

instance (s : String) : Decidable (jsonPlain s) :=
  inferInstanceAs (Decidable ('"' ∉ s.data ∧ '\\' ∉ s.data))

/-- Row shape produced by `get_today_status` (src/app.py lines 273-304);
`tasks` is the decoded `tasks_json` (`none` models the `json.loads`
exception on undecodable content, `some []` the falsy branch). -/
structure TodaySnapshot where
  name : String
  check_in : Option String
  check_out : Option String
  morning_status : Option String
  evening_status : Option String
  task : Option String
  location : Option String
  completion : Int
  progress_status : Option String
  work_summary : Option String
  tasks : Option (List String)
deriving Repr, DecidableEq

/-- The `ORDER BY check_in_time` comparison: SQLite sorts NULLs first,
then TEXT ascending. -/
def timeLe (a b : Option String) : Bool :=
  match a, b with
  | none, _ => true
  | some _, none => false
  | some x, some y => decide (x ≤ y)

/-- Rows of the `attendance` table with `date = ?`. -/
def todayRecords (st : DBState) (today : String) : List AttendanceRecord :=
  st.attendance.filter (fun r => r.date == today)

/-- The dict built for one row of `get_today_status`. -/
def toTodaySnapshot (r : AttendanceRecord) : TodaySnapshot :=
  { name := r.user_name, check_in := r.check_in_time,
    check_out := r.check_out_time, morning_status := r.morning_status,
    evening_status := r.evening_status, task := r.task,
    location := r.location, completion := r.completion,
    progress_status := r.progress_status, work_summary := r.work_summary,
    tasks := match r.tasks_json with
             | none => some []
             | some s => if s = "" then some [] else decodeJsonStringList s }

/-- `get_today_status()` (src/app.py lines 273-304): today's rows,
`ORDER BY check_in_time`, each turned into a snapshot dict. -/
def get_today_status (st : DBState) (today : String) : List TodaySnapshot :=
  ((todayRecords st today).mergeSort
    (fun a b => timeLe a.check_in_time b.check_in_time)).map toTodaySnapshot

/-- Row shape produced by `get_user_status` (src/app.py lines 306-331):
only `user_name, check_in_time, check_out_time, morning_status, task,
completion, progress_status` are selected. -/
structure UserSnapshot where
  name : String
  check_in : Option String
  check_out : Option String
  status : Option String
  task : Option String
  completion : Int
  progress_status : Option String
deriving Repr, DecidableEq

/-- `get_user_status(user_id)` (src/app.py lines 306-331). -/
def get_user_status (st : DBState) (today uid : String) : Option UserSnapshot :=
  (findRecord st uid today).map (fun r =>
    { name := r.user_name, check_in := r.check_in_time,
      check_out := r.check_out_time, status := r.morning_status,
      task := r.task, completion := r.completion,
      progress_status := r.progress_status })

/-- Element shape of `get_all_users()`'s result. -/
structure UserEntry where
  id : String
  name : String
deriving Repr, DecidableEq

/-- `get_all_users()` (src/app.py lines 333-342):
`SELECT user_id, user_name FROM users WHERE is_active = 1`. -/
def get_all_users (st : DBState) : List UserEntry :=
  (st.users.filter (fun u => u.is_active == 1)).map (fun u => ⟨u.user_id, u.user_name⟩)

/-- `checked_in_names` inside `build_daily_report` (src/app.py line 350). -/
def checked_in_names (st : DBState) (today : String) : List String :=
  (get_today_status st today).map (fun s => s.name)

/-- The users kept by the list comprehension on src/app.py line 351 (before
projecting to names): active users whose display name does not occur among
today's checked-in names. -/
def not_checked_in_users (st : DBState) (today : String) : List UserEntry :=
  (get_all_users st).filter (fun u => !((checked_in_names st today).contains u.name))

/-- `not_checked_in` inside `build_daily_report` (src/app.py line 351). -/
def not_checked_in (st : DBState) (today : String) : List String :=
  (not_checked_in_users st today).map (fun u => u.name)

/-- Python's `str(x)` on an optional string (`None` prints as `"None"`),
as interpolated by `build_daily_report`'s f-strings. -/
def pyStr (o : Option String) : String :=
  match o with
  | some s => s
  | none => "None"

/-- The status-icon lookup on src/app.py line 357. -/
def status_icon (s : Option String) : String :=
  match s with
  | some "办公室坐班" => "🏢"
  | some "外出拍摄" => "📹"
  | some "居家办公" => "💻"
  | some "会议中" => "📞"
  | _ => "📌"

/-- The per-user block of the daily report body (src/app.py lines 356-365). -/
def report_line (s : TodaySnapshot) : String :=
  let task_text := match s.task with
                   | some t => if t = "" then "未填写任务" else t
                   | none => "未填写任务"
  let progress_icon := if s.progress_status = some "一切正常" then "🟢" else "🔴"
  let base := "• " ++ s.name ++ " " ++ status_icon s.morning_status ++ " "
      ++ pyStr s.morning_status ++ "\n  📝 " ++ task_text ++ "\n  "
      ++ progress_icon ++ " 进度: " ++ pyStr s.progress_status ++ "\n"
  let withOut := match s.check_out with
                 | some _ => base ++ s!"  ⏰ 已签退 ({s.completion}%)\n"
                 | none => base
  withOut ++ "\n"

/-- `build_daily_report()` (src/app.py lines 344-372). -/
def build_daily_report (st : DBState) (today : String) : String :=
  let statuses := get_today_status st today
  let head := "📊 **今日团队去向** - " ++ today ++ "\n\n"
  let body := String.join (statuses.map report_line)
  let missing := not_checked_in st today
  let tail := if missing.isEmpty then ""
              else "⏰ **未签到**\n" ++ String.join (missing.map (fun n => "• " ++ n ++ "\n"))
  head ++ body ++ tail

/-! The Feishu webhook adapter (`feishu_webhook`, `feishu_callback`). -/

/-- Whitespace as Python's `str.strip()` removes it. -/
def isSpaceChar (c : Char) : Bool :=
  c = ' ' || c = '\t' || c = '\n' || c = '\r'

/-- Python's `str.strip()`: drop whitespace from both ends. -/
def pyStrip (s : String) : String :=
  ⟨((s.data.dropWhile isSpaceChar).reverse.dropWhile isSpaceChar).reverse⟩

/-- The `value` dict attached to a card button. -/
structure ButtonValue where
  action : String
  status : Option String
  completion : Option Int
deriving Repr, DecidableEq

/-- One card button: label text, whether `"type": "primary"` is set, and
its attached `value` payload. -/
structure CardButton where
  text : String
  primary : Bool
  value : ButtonValue
deriving Repr, DecidableEq

/-- An interactive card: header title and color template, the markdown
`div` text, and the `action` rows of buttons. -/
structure Card where
  title : String
  template : String
  body : String
  rows : List (List CardButton)
deriving Repr, DecidableEq

/-- The three outbound message shapes the handlers send. -/
inductive Outbound where
  | text (content : String)
  | rich (title content : String)
  | interactive (card : Card)
deriving Repr, DecidableEq

/-- `settings.get('task_tags', ['视频剪辑', '文案撰写', '素材拍摄'])` on
src/app.py line 718: the stored JSON list, or the three-element default
when the key is absent. -/
def webhook_task_tags (st : DBState) : List String :=
  match st.settings.find? (fun r => r.key == "task_tags") with
  | none => ["视频剪辑", "文案撰写", "素材拍摄"]
  | some r => (decodeJsonStringList r.value).getD []

/-- The `task_buttons` string built on src/app.py line 722 from the first
six configured task tags.  It is computed and then never used: the check-in
card below does not mention it. -/
def task_buttons (st : DBState) : String :=
  String.join ((webhook_task_tags st).take 6 |>.map (fun t =>
    "<button type=\"button\" onclick=\"selectTask(this)\">" ++ t ++ "</button>"))

/-- The check-in card built on src/app.py lines 723-736: a hardcoded
two-row, four-button layout.  The configured `status_options` setting is
not read anywhere in this construction. -/
def build_checkin_card (st : DBState) : Card :=
  { title := "☀️ 早安！请签到", template := "blue",
    body := "📍 当前定位：" ++ get_setting st "company_location" "公司地址未设置"
        ++ "\n选择您的状态：",
    rows := [[⟨"🏢 办公室坐班", true, ⟨"checkin", some "办公室坐班", none⟩⟩,
              ⟨"📹 外出拍摄", true, ⟨"checkin", some "外出拍摄", none⟩⟩],
             [⟨"💻 居家办公", true, ⟨"checkin", some "居家办公", none⟩⟩,
              ⟨"📞 会议中", true, ⟨"checkin", some "会议中", none⟩⟩]] }

/-- The check-out card built on src/app.py lines 741-754. -/
def build_checkout_card : Card :=
  { title := "🌙 辛苦了！请签退", template := "green",
    body := "请选择完成度：",
    rows := [[⟨"25% 🔴", false, ⟨"checkout", none, some 25⟩⟩,
              ⟨"50% 🟡", false, ⟨"checkout", none, some 50⟩⟩],
             [⟨"75% 🟢", false, ⟨"checkout", none, some 75⟩⟩,
              ⟨"100% ⭐", true, ⟨"checkout", none, some 100⟩⟩]] }

/-- The configured status vocabulary: decoded `status_options` setting
(what the spec calls the status-option vocabulary). -/
def configured_status_options (st : DBState) : List String :=
  (decodeJsonStringList (get_setting st "status_options" "[]")).getD []

/-- The statuses carried by a card's buttons, in order. -/
def card_statuses (c : Card) : List String :=
  c.rows.flatten.filterMap (fun b => b.value.status)

/-- The default `status_options` value seeded by `init_db`
(src/app.py line 94). -/
def default_status_options : List String :=
  ["办公室坐班", "外出拍摄", "居家办公", "会议中"]

/-- The help text of src/app.py lines 764-776 (body below the interpolated
bot name). -/
def help_text (st : DBState) : String :=
  "🚗 **" ++ get_setting st "bot_name" "考勤小助手"
    ++ "帮助**\n\n*可用命令：*\n• 签到 - 每日签到\n• 签退 - 每日签退\n• 日报 - 查看今日汇总\n• 帮助 - 查看帮助信息\n\n*考勤状态：*\n🏢 办公室坐班\n📹 外出拍摄\n💻 居家办公\n📞 会议中"

/-- `feishu_webhook` (src/app.py lines 701-785) for a parsed request: a
non-`text` `msg_type` is acknowledged without any action; otherwise the
sender is upserted and the trimmed text dispatched against the command
table.  The result is the new state plus the outbound messages sent. -/
def feishu_webhook (st : DBState) (today : String)
    (msg_type uid uname content : String) : DBState × List Outbound :=
  if msg_type ≠ "text" then (st, [])
  else
    let st1 := (register_user st uid uname).1
    let t := pyStrip content
    if ["签到", "/checkin", "/签到"].contains t then
      (st1, [.interactive (build_checkin_card st1)])
    else if ["签退", "/checkout", "/签退"].contains t then
      (st1, [.interactive build_checkout_card])
    else if ["日报", "/report", "/日报"].contains t then
      (st1, [.rich "📊 今日团队去向" (build_daily_report st1 today)])
    else if ["帮助", "/help"].contains t then
      (st1, [.text (help_text st1)])
    else
      (st1, [.text ("收到消息：" ++ t ++ "\n\n发送「帮助」查看可用命令")])

/-- The `action.value` dict of a card callback; absent keys are `none`. -/
structure ActionValue where
  action : Option String
  status : Option String
  completion : Option Int
deriving Repr, DecidableEq

/-- `feishu_callback` (src/app.py lines 787-816) for a parsed request:
non-`interactive` events are acknowledged without action; a `checkin`
payload runs `check_in` with task `"日常工作"` and the status reused as
location; a `checkout` payload runs `check_out` with
`action_value.get('completion', 0)` and the default empty work summary;
any other action value is ignored. -/
def feishu_callback (st : DBState) (today now : String) (evType : String)
    (value : ActionValue) (uid uname : String) : DBState × List Outbound :=
  if evType ≠ "interactive" then (st, [])
  else if value.action = some "checkin" then
    let status := value.status.getD "办公室坐班"
    let res := check_in st today now uid uname status "日常工作" status
    (res.1, [.text ("@" ++ uname ++ " " ++ res.2.2)])
  else if value.action = some "checkout" then
    let completion := value.completion.getD 0
    let res := check_out st today now uid completion
    (res.1, [.text ("@" ++ uname ++ " " ++ res.2.2)])
  else
    (st, [])

/-- The "at most one attendance record per (user, date)" invariant that the
`UNIQUE(user_id, date)` constraint enforces. -/
def atMostOnePerUserDate (st : DBState) : Prop :=
  ∀ uid d, st.attendance.countP (recMatches uid d) ≤ 1

/-! Concrete database states used to instantiate the theorems below. -/

/-- A freshly created, empty database. -/
def emptyDB : DBState := ⟨[], [], []⟩

/-- A morning record as `check_in` inserts it. -/
def sampleRecord : AttendanceRecord :=
  ⟨"u1", "Alice", "2024-01-01", some "09:00:00", none, some "办公室坐班", none,
   some "办公室", some "视频剪辑", some "[]", 0, none, none⟩

/-- One user already checked in on 2024-01-01. -/
def oneRecordDB : DBState :=
  ⟨[sampleRecord], [⟨"u1", "Alice", 1⟩], []⟩

/-- Two active users, only the first of whom has checked in. -/
def twoUserDB : DBState :=
  ⟨[sampleRecord], [⟨"u1", "Alice", 1⟩, ⟨"u2", "Bob", 1⟩], []⟩

/-- A database whose configured `status_options` vocabulary has been changed
away from the default. -/
def customStatusDB : DBState :=
  ⟨[], [], [⟨"status_options", "[\"远程办公\"]", "2024-01-01 00:00:00"⟩]⟩

/-- The state after alice checks in and then checks out with completion 75
and work summary `"完成剪辑"`. -/
def checkedOutDB : DBState :=
  (check_out ((check_in emptyDB "2024-01-01" "09:00:00" "u1" "Alice"
      "办公室坐班" "视频剪辑").1) "2024-01-01" "18:00:00" "u1" 75 "完成剪辑").1

/-- The same ledger as `checkedOutDB` except that the record's
`evening_status` and `work_summary` columns are NULL. -/
def checkedOutNoEveningDB : DBState :=
  ⟨[⟨"u1", "Alice", "2024-01-01", some "09:00:00", some "18:00:00",
     some "办公室坐班", none, some "办公室", some "视频剪辑", some "[]", 75,
     none, none⟩],
   [⟨"u1", "Alice", 1⟩], []⟩

end AttendanceBot

namespace AttendanceBot

/-! Helper lemmas about list primitives, shared by the claim theorems. -/

/-- `find?` over an update-in-place map: when the update does not change
the search predicate's verdict, searching the updated list finds the
updated image of what searching the original list finds. -/
theorem find?_map_if {α : Type} (p : α → Bool) (f : α → α)
    (hp : ∀ a, p (f a) = p a) (l : List α) :
    (l.map (fun a => if p a then f a else a)).find? p = (l.find? p).map f := by
  induction l with
  | nil => rfl
  | cons a t ih =>
    by_cases h : p a = true
    · rw [List.map_cons, if_pos h,
        List.find?_cons_of_pos _ (by rw [hp]; exact h),
        List.find?_cons_of_pos _ h, Option.map_some']
    · have h' : p a = false := by simpa using h
      rw [List.map_cons, if_neg h, List.find?_cons_of_neg _ (by simp [h']),
        List.find?_cons_of_neg _ (by simp [h']), ih]

/-- A conditional update touches nothing when no element matches. -/
theorem map_if_no_match {α : Type} (p : α → Bool) (f : α → α) (l : List α)
    (h : ∀ a ∈ l, p a = false) :
    l.map (fun a => if p a then f a else a) = l := by
  induction l with
  | nil => rfl
  | cons a t ih =>
    have ha : p a = false := h a (List.mem_cons_self a t)
    rw [List.map_cons, if_neg (by simp [ha]),
      ih (fun x hx => h x (List.mem_cons_of_mem _ hx))]

/-- `find?` skips a prefix that contains no match. -/
theorem find?_append_none {α : Type} (p : α → Bool) (l₁ l₂ : List α)
    (h : l₁.find? p = none) :
    (l₁ ++ l₂).find? p = l₂.find? p := by
  induction l₁ with
  | nil => rfl
  | cons a t ih =>
    have hfa : p a = false := by
      by_contra hc
      rw [List.find?_cons_of_pos _ (by simpa using hc)] at h
      cases h
    rw [List.find?_cons_of_neg _ (by simp [hfa])] at h
    rw [List.cons_append, List.find?_cons_of_neg _ (by simp [hfa]), ih h]

/-- `existsRecord = false` gives the pointwise form. -/
theorem no_record_forall {st : DBState} {uid today : String}
    (h : existsRecord st uid today = false) :
    ∀ r ∈ st.attendance, recMatches uid today r = false := by
  intro r hr
  have := List.any_eq_false.mp h r hr
  simpa using this

/-- `existsRecord = false` also means `find?` fails. -/
theorem no_record_find? {st : DBState} {uid today : String}
    (h : existsRecord st uid today = false) :
    st.attendance.find? (recMatches uid today) = none :=
  List.find?_eq_none.mpr (fun r hr => by simp [no_record_forall h r hr])

/-- `register_user` leaves exactly one row for the registered id and it is
the fresh `(uid, uname, 1)` row. -/
theorem register_find (st : DBState) (uid uname : String) :
    (register_user st uid uname).1.users.find? (fun u => u.user_id == uid)
      = some ⟨uid, uname, 1⟩ := by
  have hnone : (st.users.filter (fun u => !(u.user_id == uid))).find?
      (fun u => u.user_id == uid) = none :=
    List.find?_eq_none.mpr (fun u hu => by
      have := (List.mem_filter.mp hu).2
      simpa using this)
  unfold register_user
  rw [find?_append_none _ _ _ hnone]
  simp [List.find?]

/-! # Claim C2

`check_out` for a user with no record today: failure outcome, no record
created, database unchanged. -/

/-- C2: a checkOut call for a user who has no attendance record for today
returns the failure outcome with the "not checked in" message
(`您今天还没有签到！`), creates no record, and leaves the whole database —
in particular the attendance ledger — unchanged. -/
theorem checkOut_without_checkIn_is_noop (st : DBState) (today now uid : String)
    (completion : Int) (ws : String)
    (h : existsRecord st uid today = false) :
    check_out st today now uid completion ws = (st, false, "您今天还没有签到！") := by
  have hall := no_record_forall h
  have hcount : st.attendance.countP (recMatches uid today) = 0 :=
    List.countP_eq_zero.mpr (fun a ha => by simp [hall a ha])
  unfold check_out
  rw [map_if_no_match _ _ _ hall, hcount]
  rfl

/-- Witness for C2 at the empty database. -/
theorem checkOut_without_checkIn_is_noop_witness :
    check_out emptyDB "2024-01-01" "18:00:00" "u1" 75 ""
      = (emptyDB, false, "您今天还没有签到！") :=
  checkOut_without_checkIn_is_noop emptyDB "2024-01-01" "18:00:00" "u1" 75 ""
    (by decide)

/-! # Claim C7

`update_progress` semantics: free-text progress set on today's record in
any state; silent no-op reporting success when no record exists. -/

/-- C7: `update_progress` always reports success; when no record exists for
(user, today) it changes nothing; and whenever a record for (user, today)
is present after the call — whatever its check-in/check-out state, since
the WHERE clause only constrains user and date — its free-text progress
field equals the given value. -/
theorem updateProgress_semantics (st : DBState) (today uid p : String) :
    (update_progress st today uid p).2 = true
    ∧ (existsRecord st uid today = false → (update_progress st today uid p).1 = st)
    ∧ (∀ r, findRecord (update_progress st today uid p).1 uid today = some r →
        r.progress_status = some p) := by
  refine ⟨rfl, ?_, ?_⟩
  · intro h
    unfold update_progress
    rw [map_if_no_match _ _ _ (no_record_forall h)]
  · intro r hr
    unfold findRecord update_progress at hr
    rw [find?_map_if (recMatches uid today)
      (fun r => { r with progress_status := some p }) (fun a => rfl)] at hr
    cases hfind : st.attendance.find? (recMatches uid today) with
    | none => rw [hfind] at hr; cases hr
    | some r0 =>
      rw [hfind, Option.map_some'] at hr
      cases hr
      rfl

/-- Witness for C7: success flag and no-op at the empty database. -/
theorem updateProgress_semantics_witness :
    (update_progress emptyDB "2024-01-01" "u1" "一切正常").2 = true
    ∧ (update_progress emptyDB "2024-01-01" "u1" "一切正常").1 = emptyDB :=
  ⟨(updateProgress_semantics emptyDB "2024-01-01" "u1" "一切正常").1,
   (updateProgress_semantics emptyDB "2024-01-01" "u1" "一切正常").2.1 (by decide)⟩

/-! # Claim C8

`register_user` is an upsert returning a boolean success flag, keeping
`user_id` unique and overwriting the stored display name. -/

/-- C8: `register_user` returns a boolean success flag (it is a total
function into `Bool`, never an exception), preserves uniqueness of the
user identifier, and after a call for an already-registered identifier the
stored row for that identifier carries the new display name. -/
theorem registerOrUpdate_upsert (st : DBState) (uid uname : String)
    (h : (st.users.map (fun u => u.user_id)).Nodup) :
    (register_user st uid uname).2 = true
    ∧ ((register_user st uid uname).1.users.map (fun u => u.user_id)).Nodup
    ∧ (register_user st uid uname).1.users.find? (fun u => u.user_id == uid)
        = some ⟨uid, uname, 1⟩ := by
  refine ⟨rfl, ?_, register_find st uid uname⟩
  show ((st.users.filter (fun u => !(u.user_id == uid))
      ++ [(⟨uid, uname, 1⟩ : UserRow)]).map (fun u => u.user_id)).Nodup
  rw [List.map_append, List.nodup_append]
  refine ⟨h.sublist ((List.filter_sublist _).map _), by simp, ?_⟩
  intro a ha hb
  simp only [List.map_cons, List.map_nil, List.mem_singleton] at hb
  subst hb
  obtain ⟨u, hu, rfl⟩ := List.mem_map.mp ha
  have := (List.mem_filter.mp hu).2
  simp at this

/-- Witness for C8: re-registering `u1` overwrites the display name. -/
theorem registerOrUpdate_upsert_witness :
    (register_user oneRecordDB "u1" "Alicia").2 = true
    ∧ ((register_user oneRecordDB "u1" "Alicia").1.users.map
        (fun u => u.user_id)).Nodup
    ∧ (register_user oneRecordDB "u1" "Alicia").1.users.find?
        (fun u => u.user_id == "u1") = some ⟨"u1", "Alicia", 1⟩ :=
  registerOrUpdate_upsert oneRecordDB "u1" "Alicia" (by decide)

/-! # Claim C9

Every `register_user` call sets the active flag to 1, so the user appears
in the active-user listing afterwards. -/

/-- C9: after any `register_user` call — in particular one triggered by an
inbound message or card action from a previously deactivated user — the
user's row has its active flag set to 1 and the user appears in the
active-user listing `get_all_users`. -/
theorem register_reactivates_user (st : DBState) (uid uname : String) :
    ((register_user st uid uname).1.users.find? (fun u => u.user_id == uid)).map
        (fun u => u.is_active) = some 1
    ∧ (⟨uid, uname⟩ : UserEntry) ∈ get_all_users (register_user st uid uname).1 := by
  constructor
  · rw [register_find st uid uname]
    rfl
  · unfold get_all_users register_user
    apply List.mem_map.mpr
    refine ⟨⟨uid, uname, 1⟩, ?_, rfl⟩
    apply List.mem_filter.mpr
    constructor
    · exact List.mem_append_right _ (List.mem_singleton.mpr rfl)
    · rfl

end AttendanceBot

namespace AttendanceBot

/-! # Claim C1

Uniqueness of the (user, date) attendance record and rejection of a second
check-in without modifying the existing record. -/

/-- C1: assuming at most one attendance record per (user, date), a
`check_in` call preserves that invariant, and when a record for
(user, today) already exists the call returns the failure outcome with the
"already checked in" message (`您今天已经签到过了！`) and leaves the entire
database — in particular every field of the existing record — unmodified. -/
theorem checkIn_unique_and_rejects_duplicate (st : DBState)
    (today now uid uname status task loc tj : String)
    (hinv : atMostOnePerUserDate st) :
    atMostOnePerUserDate (check_in st today now uid uname status task loc tj).1
    ∧ (existsRecord st uid today = true →
        check_in st today now uid uname status task loc tj
          = (st, false, "您今天已经签到过了！")) := by
  by_cases h : existsRecord st uid today = true
  · constructor
    · intro uid' d'
      unfold check_in
      rw [if_pos h]
      exact hinv uid' d'
    · intro _
      unfold check_in
      rw [if_pos h]
  · have h' : existsRecord st uid today = false := by simpa using h
    refine ⟨?_, fun hc => absurd hc h⟩
    intro uid' d'
    unfold check_in
    rw [if_neg (by simp [h'])]
    show ((st.attendance ++ [_]).countP (recMatches uid' d')) ≤ 1
    rw [List.countP_append]
    by_cases hm : uid' = uid ∧ d' = today
    · obtain ⟨rfl, rfl⟩ := hm
      have h0 : st.attendance.countP (recMatches uid' d') = 0 :=
        List.countP_eq_zero.mpr (fun a ha => by simp [no_record_forall h' a ha])
      rw [h0]
      simpa using List.countP_le_length (l := [_]) (recMatches uid' d')
    · have hm' : recMatches uid' d'
          ⟨uid, uname, today, some now, none, some status, none, some loc,
           some task, some tj, 0, none, none⟩ = false := by
        unfold recMatches
        by_cases e1 : uid = uid'
        · have e2 : ¬ today = d' := fun e => hm ⟨e1.symm, e.symm⟩
          simp [e2]
        · simp [e1]
      rw [List.countP_cons, List.countP_nil]
      simp only [hm']
      simpa using hinv uid' d'

/-- Witness for C1: a second check-in for `u1` on 2024-01-01 is rejected
verbatim. -/
theorem checkIn_unique_and_rejects_duplicate_witness :
    atMostOnePerUserDate
      (check_in oneRecordDB "2024-01-01" "09:05:00" "u1" "Alice" "外出拍摄"
        "素材拍摄" "外出" "[]").1
    ∧ check_in oneRecordDB "2024-01-01" "09:05:00" "u1" "Alice" "外出拍摄"
        "素材拍摄" "外出" "[]"
      = (oneRecordDB, false, "您今天已经签到过了！") := by
  have h := checkIn_unique_and_rejects_duplicate oneRecordDB "2024-01-01"
    "09:05:00" "u1" "Alice" "外出拍摄" "素材拍摄" "外出" "[]"
    (fun uid d => List.countP_le_length (recMatches uid d))
  exact ⟨h.1, h.2 (by decide)⟩

/-- The database that `check_out` leaves behind, independent of whether
the UPDATE matched a row. -/
theorem check_out_fst (st : DBState) (today now uid : String) (c : Int)
    (ws : String) :
    (check_out st today now uid c ws).1
      = { st with attendance := st.attendance.map (fun r =>
            if recMatches uid today r then checkoutUpdate now c ws r else r) } := by
  simp only [check_out]
  split <;> rfl

/-! # Claim C10

A `checkout` callback whose payload omits the completion field runs
`check_out` with completion 0 and an empty work summary. -/

/-- C10: when the callback handler receives an interactive event with
action `"checkout"` and no completion field in the payload, the result is
exactly that of `check_out` with completion 0 and empty work summary, and
for a checked-in user today's record ends up with completion 0, empty
work summary and the check-out time set. -/
theorem callback_checkout_defaults (st : DBState) (today now uid uname : String)
    (h : existsRecord st uid today = true) :
    feishu_callback st today now "interactive" ⟨some "checkout", none, none⟩ uid uname
      = ((check_out st today now uid 0 "").1,
         [Outbound.text ("@" ++ uname ++ " " ++ (check_out st today now uid 0 "").2.2)])
    ∧ ∃ r, findRecord (check_out st today now uid 0 "").1 uid today = some r
        ∧ r.completion = 0 ∧ r.work_summary = some "" ∧ r.check_out_time = some now := by
  constructor
  · unfold feishu_callback
    rw [if_neg (by simp), if_neg (by simp), if_pos rfl]
    rfl
  · have hfind : (findRecord (check_out st today now uid 0 "").1 uid today)
        = (st.attendance.find? (recMatches uid today)).map (checkoutUpdate now 0 "") := by
      rw [check_out_fst]
      exact find?_map_if (recMatches uid today) (checkoutUpdate now 0 "")
        (fun a => rfl) st.attendance
    obtain ⟨r0, hr0, hp⟩ := List.any_eq_true.mp h
    cases hfound : st.attendance.find? (recMatches uid today) with
    | none =>
      exact absurd (List.find?_eq_none.mp hfound r0 hr0) (by simp [hp])
    | some r1 =>
      refine ⟨checkoutUpdate now 0 "" r1, ?_, rfl, rfl, rfl⟩
      rw [hfind, hfound, Option.map_some']

/-- Witness for C10 at a state where `u1` has checked in today. -/
theorem callback_checkout_defaults_witness :
    feishu_callback oneRecordDB "2024-01-01" "18:00:00" "interactive"
        ⟨some "checkout", none, none⟩ "u1" "Alice"
      = ((check_out oneRecordDB "2024-01-01" "18:00:00" "u1" 0 "").1,
         [Outbound.text ("@" ++ "Alice" ++ " "
            ++ (check_out oneRecordDB "2024-01-01" "18:00:00" "u1" 0 "").2.2)])
    ∧ ∃ r, findRecord (check_out oneRecordDB "2024-01-01" "18:00:00" "u1" 0 "").1
          "u1" "2024-01-01" = some r
        ∧ r.completion = 0 ∧ r.work_summary = some ""
        ∧ r.check_out_time = some "18:00:00" :=
  callback_checkout_defaults oneRecordDB "2024-01-01" "18:00:00" "u1" "Alice"
    (by decide)

end AttendanceBot

namespace AttendanceBot

/-! # Claim C3

The daily report's two sections: one entry per record in today's ledger,
and one entry per active user whose display name is absent from today's
names (the set difference is by display name, exactly as the source
computes it). -/

/-- C3: the first section of the daily report lists exactly the names of
today's ledger records (one line per record, so every user present in
today's ledger appears exactly once, the ledger holding at most one record
per user and day); and, provided user identifiers are unique, every active
registered user appears in the "not checked in" section exactly once when
their display name is absent from today's names and zero times when it is
present — absence being computed as a set difference by display name. -/
theorem daily_report_partition (st : DBState) (today : String)
    (husers : (st.users.map (fun u => u.user_id)).Nodup) :
    List.Perm (checked_in_names st today)
      ((todayRecords st today).map (fun r => r.user_name))
    ∧ ∀ u ∈ get_all_users st,
        (not_checked_in_users st today).count u =
          (if (checked_in_names st today).contains u.name = true then 0 else 1) := by
  constructor
  · unfold checked_in_names get_today_status
    rw [List.map_map]
    exact (List.mergeSort_perm (todayRecords st today) _).map _
  · intro u hu
    have hids : ((get_all_users st).map (fun e => e.id)).Nodup := by
      unfold get_all_users
      rw [List.map_map]
      exact husers.sublist ((List.filter_sublist _).map _)
    have hnodup : (get_all_users st).Nodup := hids.of_map _
    have hcount1 : (get_all_users st).count u = 1 :=
      List.count_eq_one_of_mem hnodup hu
    unfold not_checked_in_users
    by_cases hc : (checked_in_names st today).contains u.name = true
    · rw [if_pos hc]
      apply List.count_eq_zero.mpr
      intro hmem
      have h2 := (List.mem_filter.mp hmem).2
      rw [hc] at h2
      cases h2
    · rw [if_neg hc]
      have hc' : (checked_in_names st today).contains u.name = false := by
        simpa using hc
      rw [List.count_filter (by simpa using hc')]
      exact hcount1

/-- Witness for C3: Alice checked in, Bob did not. -/
theorem daily_report_partition_witness :
    List.Perm (checked_in_names twoUserDB "2024-01-01")
      ((todayRecords twoUserDB "2024-01-01").map (fun r => r.user_name))
    ∧ ∀ u ∈ get_all_users twoUserDB,
        (not_checked_in_users twoUserDB "2024-01-01").count u =
          (if (checked_in_names twoUserDB "2024-01-01").contains u.name = true
           then 0 else 1) :=
  daily_report_partition twoUserDB "2024-01-01" (by decide)

end AttendanceBot

namespace AttendanceBot

/-! # Claim C4

The claim says the "choose status" card is built from the configured
status-option vocabulary (up to six options).  In the source the card's
buttons are hardcoded: the handler reads the task tags, builds an HTML
string `task_buttons` from the first six and discards it, and the card
always carries the same four buttons.  The claim fails as soon as the
configured vocabulary differs from the default. -/

/-- C4 counterexample: with `status_options` configured to `["远程办公"]`,
the check-in keyword still makes the handler emit the card whose button
statuses are NOT the configured vocabulary truncated to six entries. -/
theorem checkin_card_ignores_configured_options :
    ((feishu_webhook customStatusDB "2024-01-01" "text" "u1" "Alice" "签到").2
      = [Outbound.interactive
          (build_checkin_card ((register_user customStatusDB "u1" "Alice").1))])
    ∧ configured_status_options ((register_user customStatusDB "u1" "Alice").1)
        = ["远程办公"]
    ∧ ¬ (card_statuses
          (build_checkin_card ((register_user customStatusDB "u1" "Alice").1))
        = (configured_status_options
            ((register_user customStatusDB "u1" "Alice").1)).take 6) := by
  refine ⟨?_, by decide, by decide⟩
  unfold feishu_webhook
  rw [if_neg (by simp), if_pos (by decide)]

/-- C4 amended: on a check-in keyword the handler emits the interactive
card whose buttons are the four fixed statuses — which coincide with the
default status vocabulary — each button's payload carrying
`{action: "checkin", status}`; the configured status-option vocabulary is
not consulted (the statement holds for every settings state). -/
theorem checkin_card_fixed_default_buttons (st : DBState)
    (today uid uname content : String)
    (h : ["签到", "/checkin", "/签到"].contains (pyStrip content) = true) :
    (feishu_webhook st today "text" uid uname content).2
      = [Outbound.interactive (build_checkin_card ((register_user st uid uname).1))]
    ∧ (build_checkin_card ((register_user st uid uname).1)).rows.flatten.map
        (fun b => b.value)
      = [⟨"checkin", some "办公室坐班", none⟩, ⟨"checkin", some "外出拍摄", none⟩,
         ⟨"checkin", some "居家办公", none⟩, ⟨"checkin", some "会议中", none⟩]
    ∧ card_statuses (build_checkin_card ((register_user st uid uname).1))
        = default_status_options := by
  refine ⟨?_, rfl, rfl⟩
  unfold feishu_webhook
  rw [if_neg (by simp), if_pos h]

/-- Witness for C4's amended theorem at the check-in keyword `签到`. -/
theorem checkin_card_fixed_default_buttons_witness :
    (feishu_webhook emptyDB "2024-01-01" "text" "u1" "Alice" "签到").2
      = [Outbound.interactive
          (build_checkin_card ((register_user emptyDB "u1" "Alice").1))]
    ∧ (build_checkin_card ((register_user emptyDB "u1" "Alice").1)).rows.flatten.map
        (fun b => b.value)
      = [⟨"checkin", some "办公室坐班", none⟩, ⟨"checkin", some "外出拍摄", none⟩,
         ⟨"checkin", some "居家办公", none⟩, ⟨"checkin", some "会议中", none⟩]
    ∧ card_statuses (build_checkin_card ((register_user emptyDB "u1" "Alice").1))
        = default_status_options :=
  checkin_card_fixed_default_buttons emptyDB "2024-01-01" "u1" "Alice" "签到"
    (by decide)

end AttendanceBot

namespace AttendanceBot

/-! # Claim C5

After check-in and check-out the record carries check-out time, completion,
the fixed evening-status label and the work summary.  The claim also says a
subsequent per-user query reflects these values — but `get_user_status`
selects neither `evening_status` nor `work_summary`, so the query cannot
reflect them. -/

/-- C5 counterexample: `checkedOutDB` (alice checked in, then checked out
with completion 75 and summary `完成剪辑`) and `checkedOutNoEveningDB`
differ precisely in the record's evening status and work summary, yet the
per-user query `get_user_status` returns identical snapshots for both, so
the per-user query does not reflect the evening status or the work
summary. -/
theorem user_query_omits_evening_fields :
    ((findRecord checkedOutDB "u1" "2024-01-01").map
        (fun r => (r.evening_status, r.work_summary))
      = some (some "已完成工作", some "完成剪辑"))
    ∧ ((findRecord checkedOutNoEveningDB "u1" "2024-01-01").map
        (fun r => (r.evening_status, r.work_summary))
      = some (none, none))
    ∧ get_user_status checkedOutDB "2024-01-01" "u1"
      = get_user_status checkedOutNoEveningDB "2024-01-01" "u1" := by
  decide

/-- C5 amended: after a user with no record today checks in and then
checks out with completion P and work summary W, today's record has the
check-out time set, completion P, the fixed evening label `已完成工作` and
work summary W; the subsequent per-user query reflects the check-out time
and the completion (its snapshot does not include the evening status or
the work summary). -/
theorem checkOut_sets_record_fields (st : DBState)
    (today t1 t2 uid uname status task loc tj W : String) (P : Int)
    (h : existsRecord st uid today = false) :
    findRecord (check_out ((check_in st today t1 uid uname status task loc tj).1)
        today t2 uid P W).1 uid today
      = some ⟨uid, uname, today, some t1, some t2, some status, some "已完成工作",
          some loc, some task, some tj, P, none, some W⟩
    ∧ get_user_status (check_out ((check_in st today t1 uid uname status task loc tj).1)
        today t2 uid P W).1 today uid
      = some ⟨uname, some t1, some t2, some status, some task, P, none⟩ := by
  have hatt : (check_in st today t1 uid uname status task loc tj).1.attendance
      = st.attendance
        ++ [⟨uid, uname, today, some t1, none, some status, none, some loc,
             some task, some tj, 0, none, none⟩] := by
    unfold check_in
    rw [if_neg (by simp [h])]
    rfl
  have hfind : findRecord (check_out ((check_in st today t1 uid uname status task loc tj).1)
      today t2 uid P W).1 uid today
      = some ⟨uid, uname, today, some t1, some t2, some status, some "已完成工作",
          some loc, some task, some tj, P, none, some W⟩ := by
    rw [check_out_fst]
    show (((check_in st today t1 uid uname status task loc tj).1.attendance.map
        (fun r => if recMatches uid today r then checkoutUpdate t2 P W r else r)).find?
        (recMatches uid today)) = _
    rw [hatt, List.map_append]
    rw [find?_append_none _ _ _ ?hnone]
    case hnone =>
      rw [find?_map_if (recMatches uid today) (checkoutUpdate t2 P W) (fun a => rfl)]
      rw [no_record_find? h]
      rfl
    have hm : recMatches uid today
        ⟨uid, uname, today, some t1, none, some status, none, some loc,
         some task, some tj, 0, none, none⟩ = true := by
      simp [recMatches]
    rw [List.map_cons, List.map_nil, if_pos hm,
      List.find?_cons_of_pos _ (by exact hm)]
    rfl
  refine ⟨hfind, ?_⟩
  unfold get_user_status
  rw [hfind]
  rfl

/-- Witness for C5's amended theorem: the concrete alice scenario with
completion 75. -/
theorem checkOut_sets_record_fields_witness :
    findRecord (check_out ((check_in emptyDB "2024-01-01" "09:00:00" "u1" "Alice"
        "办公室坐班" "视频剪辑" "办公室" "[]").1) "2024-01-01" "18:00:00" "u1" 75
        "完成剪辑").1 "u1" "2024-01-01"
      = some ⟨"u1", "Alice", "2024-01-01", some "09:00:00", some "18:00:00",
          some "办公室坐班", some "已完成工作", some "办公室", some "视频剪辑",
          some "[]", 75, none, some "完成剪辑"⟩
    ∧ get_user_status (check_out ((check_in emptyDB "2024-01-01" "09:00:00" "u1"
        "Alice" "办公室坐班" "视频剪辑" "办公室" "[]").1) "2024-01-01" "18:00:00"
        "u1" 75 "完成剪辑").1 "2024-01-01" "u1"
      = some ⟨"Alice", some "09:00:00", some "18:00:00", some "办公室坐班",
          some "视频剪辑", 75, none⟩ :=
  checkOut_sets_record_fields emptyDB "2024-01-01" "09:00:00" "18:00:00" "u1"
    "Alice" "办公室坐班" "视频剪辑" "办公室" "[]" "完成剪辑" 75 (by decide)

end AttendanceBot

namespace AttendanceBot

/-! # Claim C6

Settings round-trip.  `set` followed by `get` returns exactly the stored
value; `get` of an absent key returns the caller's default; and a
JSON-encoded list of strings decodes back to the original list. -/

/-- `skipSpaces` passes a leading quote through. -/
theorem skipSpaces_quote (cs : List Char) : skipSpaces ('"' :: cs) = '"' :: cs := by
  show (if ('"' : Char) = ' ' then skipSpaces cs else '"' :: cs) = '"' :: cs
  rw [if_neg (by decide)]

/-- `skipSpaces` passes a leading opening bracket through. -/
theorem skipSpaces_lbracket (cs : List Char) :
    skipSpaces ('[' :: cs) = '[' :: cs := by
  show (if ('[' : Char) = ' ' then skipSpaces cs else '[' :: cs) = '[' :: cs
  rw [if_neg (by decide)]

/-- `parseStr` consumes an encoded quote-free string up to its closing
quote. -/
theorem parseStr_encodes (s : List Char) (h : '"' ∉ s) :
    ∀ (acc rest : List Char),
      parseStr acc (s ++ '"' :: rest) = some (⟨acc.reverse ++ s⟩, rest) := by
  induction s with
  | nil => intro acc rest; simp [parseStr]
  | cons c cs ih =>
    intro acc rest
    have hc : ¬ c = '"' := fun e => h (by rw [e]; exact List.mem_cons_self _ _)
    rw [List.cons_append,
      show parseStr acc (c :: (cs ++ '"' :: rest)) = parseStr (c :: acc) (cs ++ '"' :: rest)
        from by simp [parseStr, hc],
      ih (fun hm => h (List.mem_cons_of_mem _ hm)) (c :: acc) rest]
    simp

/-- `parseStr_encodes` with an empty accumulator recovers the string. -/
theorem parseStr_encodes' (s : String) (hs : '"' ∉ s.data) (rest : List Char) :
    parseStr [] (s.data ++ '"' :: rest) = some (s, rest) := by
  rw [parseStr_encodes s.data hs [] rest]
  rfl

/-- One unfolding of `parseItems` at a leading quote. -/
theorem parseItems_quote (f : Nat) (X : List Char) :
    parseItems (f + 1) ('"' :: X)
      = (match parseStr [] X with
         | none => none
         | some (s, rest2) =>
           match skipSpaces rest2 with
           | [] => none
           | d :: rest3 =>
             if d = ']' then some ([s], rest3)
             else if d = ',' then
               match parseItems f rest3 with
               | some (l, rest4) => some (s :: l, rest4)
               | none => none
             else none) := by
  conv_lhs => rw [parseItems]
  rw [skipSpaces_quote]
  rfl

/-- The encoding is at least as long as the list. -/
theorem encodeItemsCh_length (l : List String) :
    l.length ≤ (encodeItemsCh l).length := by
  induction l with
  | nil => simp [encodeItemsCh]
  | cons s t ih =>
    cases t with
    | nil =>
      simp [encodeItemsCh, encodeItem]
    | cons s2 t2 =>
      simp only [encodeItemsCh, encodeItem, List.length_append, List.length_cons,
        List.length_nil] at *
      omega

/-- `parseItems` ignores a leading space (when it still has fuel). -/
theorem parseItems_skip_space (g : Nat) (cs : List Char) :
    parseItems (g + 1) (' ' :: cs) = parseItems (g + 1) cs := by
  conv_lhs => rw [parseItems]
  conv_rhs => rw [parseItems]
  rw [show skipSpaces (' ' :: cs) = skipSpaces cs from by
    show (if (' ' : Char) = ' ' then skipSpaces cs else ' ' :: cs) = skipSpaces cs
    rw [if_pos rfl]]

/-- `parseItems` recovers a non-empty encoded item sequence, given enough
fuel. -/
theorem parseItems_encodes : ∀ l : List String, l ≠ [] →
    (∀ s ∈ l, '"' ∉ s.data) →
    ∀ fuel, l.length ≤ fuel →
      parseItems fuel (encodeItemsCh l ++ [']']) = some (l, []) := by
  intro l
  induction l with
  | nil => intro hne; exact absurd rfl hne
  | cons s t ih =>
    intro _ hq fuel hf
    obtain ⟨f, rfl⟩ : ∃ f, fuel = f + 1 := by
      cases fuel with
      | zero => simp at hf
      | succ f => exact ⟨f, rfl⟩
    have hs : '"' ∉ s.data := hq s (List.mem_cons_self _ _)
    cases t with
    | nil =>
      have harr : encodeItemsCh [s] ++ [']'] = '"' :: (s.data ++ '"' :: [']']) := by
        simp [encodeItemsCh, encodeItem]
      rw [harr, parseItems_quote, parseStr_encodes' s hs]
      rfl
    | cons s2 t2 =>
      have harr : encodeItemsCh (s :: s2 :: t2) ++ [']']
          = '"' :: (s.data ++ '"' :: (',' :: ' ' :: (encodeItemsCh (s2 :: t2) ++ [']']))) := by
        simp [encodeItemsCh, encodeItem]
      obtain ⟨g, rfl⟩ : ∃ g, f = g + 1 := by
        cases f with
        | zero => simp [List.length_cons] at hf
        | succ g => exact ⟨g, rfl⟩
      rw [harr, parseItems_quote, parseStr_encodes' s hs]
      show (match parseItems (g + 1) (' ' :: (encodeItemsCh (s2 :: t2) ++ [']'])) with
            | some (l, rest4) => some (s :: l, rest4)
            | none => none) = some (s :: s2 :: t2, [])
      rw [parseItems_skip_space g _,
        ih (List.cons_ne_nil s2 t2) (fun x hx => hq x (List.mem_cons_of_mem _ hx))
          (g + 1) (by simp only [List.length_cons] at hf ⊢; omega)]

/-- `json.loads` of `json.dumps` of a list of quote-free strings is the
original list. -/
theorem decode_encode_stringList (l : List String)
    (hq : ∀ s ∈ l, '"' ∉ s.data) :
    decodeJsonStringList (encodeJsonStringList l) = some l := by
  cases l with
  | nil => decide
  | cons s t =>
    unfold decodeJsonStringList encodeJsonStringList
    show (match skipSpaces ('[' :: (encodeItemsCh (s :: t) ++ [']'])) with
          | [] => none
          | c :: rest =>
            if c = '[' then
              match skipSpaces rest with
              | [] => none
              | d :: rest2 =>
                if d = ']' then (if skipSpaces rest2 = [] then some [] else none)
                else
                  match parseItems (rest.length + 1) (d :: rest2) with
                  | some (l2, rest3) => if skipSpaces rest3 = [] then some l2 else none
                  | none => none
            else none) = some (s :: t)
    rw [skipSpaces_lbracket]
    show (match skipSpaces (encodeItemsCh (s :: t) ++ [']']) with
          | [] => none
          | d :: rest2 =>
            if d = ']' then (if skipSpaces rest2 = [] then some [] else none)
            else
              match parseItems ((encodeItemsCh (s :: t) ++ [']']).length + 1) (d :: rest2) with
              | some (l2, rest3) => if skipSpaces rest3 = [] then some l2 else none
              | none => none) = some (s :: t)
    obtain ⟨Y, hY⟩ : ∃ Y, encodeItemsCh (s :: t) ++ [']'] = '"' :: Y := by
      cases t with
      | nil =>
        exact ⟨s.data ++ ['"', ']'], by simp [encodeItemsCh, encodeItem]⟩
      | cons s2 t2 =>
        exact ⟨s.data ++ '"' :: ',' :: ' ' :: (encodeItemsCh (s2 :: t2) ++ [']']),
          by simp [encodeItemsCh, encodeItem]⟩
    rw [hY, skipSpaces_quote]
    show (match parseItems (('"' :: Y).length + 1) ('"' :: Y) with
          | some (l2, rest3) => if skipSpaces rest3 = [] then some l2 else none
          | none => none) = some (s :: t)
    rw [← hY]
    have hlen : (s :: t).length ≤ (encodeItemsCh (s :: t) ++ [']']).length + 1 := by
      have := encodeItemsCh_length (s :: t)
      simp only [List.length_append, List.length_cons, List.length_nil] at *
      omega
    rw [parseItems_encodes (s :: t) (List.cons_ne_nil s t) hq _ hlen]
    rfl

/-- C6: a `set_setting` followed by `get_setting` on the same key returns
exactly the stored value; `get_setting` of an absent key returns the
caller-supplied default; and for JSON-shaped settings (a list of strings
free of characters that `json.dumps` would escape) the stored value
decodes back to the original structured list. -/
theorem settings_roundtrip (st : DBState) (k v d now : String) (l : List String)
    (hgood : ∀ s ∈ l, jsonPlain s) :
    get_setting (set_setting st k v now) k d = v
    ∧ (st.settings.find? (fun r => r.key == k) = none → get_setting st k d = d)
    ∧ decodeJsonStringList (encodeJsonStringList l) = some l := by
  refine ⟨?_, ?_, decode_encode_stringList l (fun s hs => (hgood s hs).1)⟩
  · unfold get_setting set_setting
    rw [find?_append_none _ _ _ (List.find?_eq_none.mpr (fun r hr => by
      have := (List.mem_filter.mp hr).2
      simpa using this))]
    rw [List.find?_cons_of_pos _ (by simp)]
  · intro h
    unfold get_setting
    rw [h]

/-- Witness for C6: storing a task-tag list and round-tripping it. -/
theorem settings_roundtrip_witness :
    get_setting (set_setting emptyDB "task_tags" "[\"视频剪辑\", \"文案撰写\"]"
        "2024-01-01 00:00:00") "task_tags" "" = "[\"视频剪辑\", \"文案撰写\"]"
    ∧ get_setting emptyDB "task_tags" "fallback" = "fallback"
    ∧ decodeJsonStringList (encodeJsonStringList ["视频剪辑", "文案撰写"])
        = some ["视频剪辑", "文案撰写"] :=
  have h := settings_roundtrip emptyDB "task_tags" "[\"视频剪辑\", \"文案撰写\"]"
    "fallback" "2024-01-01 00:00:00" ["视频剪辑", "文案撰写"] (by decide)
  ⟨h.1, h.2.1 (by decide), h.2.2⟩

end AttendanceBot
